import Mathlib

/-!
Shallow embedding of the `kyuds/rclone-bench` benchmark orchestration code
(`bench/bench_utils.py`, `bench/model_loading.py`, `scripts/dataset_prefill.py`,
`scripts/model_data_prefill.py`) together with theorems settling the frozen
claims about it.

Conventions of the embedding:
* Python functions that can raise are modelled as `Option`/`Except` valued
  functions (`none`/`.error` = an exception escapes).
* The process environment is a partial map `String → Option String`.
* Wall-clock quantities and Python floats are modelled as rationals; Python's
  `round(x, 2)` (banker's rounding to two decimals) is `pyRound2`.
* External collaborators (the S3 store reached through the `rclone` binary, the
  filesystem, the HTTP stats endpoint) are explicit state/oracle parameters.
-/

namespace RcloneBench

/-! ## `bench/bench_utils.py` — configuration record -/

/-- The `RCloneOptions` dataclass (bench/bench_utils.py, lines 16-36) with the
built-in field defaults.  `transfers`, `multi_thread_streams` and
`vfs_read_chunk_streams` are Python ints; the size/duration knobs are strings
passed through verbatim; `fast_list` is a boolean flag. -/
structure RCloneOptions where
  transfers : Int := 4
  multi_thread_streams : Int := 4
  buffer_size : String := "16M"
  vfs_cache_max_size : String := "10G"
  vfs_cache_max_age : String := "1h"
  vfs_write_back : String := "5s"
  vfs_read_ahead : String := "128M"
  vfs_read_chunk_size : String := "128M"
  vfs_read_chunk_streams : Int := 4
  fast_list : Bool := false
deriving DecidableEq, Repr

/-- The process environment, as seen by `os.environ.get`. -/
abbrev Env : Type := String → Option String

/-- Checks that a character list is a valid Python integer-literal digit run:
nonempty, digits only, except that a single underscore may separate two
digits (`int("1_2")` parses, `int("1__2")`, `int("_1")`, `int("1_")` raise). -/
def pyDigitsOk : List Char → Bool
  | [] => false
  | [c] => c.isDigit
  | c :: '_' :: rest => c.isDigit && pyDigitsOk rest
  | c :: rest => c.isDigit && pyDigitsOk rest

/-- Numeric value of a digit run (underscore separators ignored). -/
def digitsVal (cs : List Char) : Nat :=
  (cs.filter (fun c => c ≠ '_')).foldl (fun n c => 10 * n + (c.toNat - '0'.toNat)) 0

/-- Leading/trailing-whitespace stripping, as Python's `int` applies to its
string argument before parsing. -/
def pyStrip (cs : List Char) : List Char :=
  ((cs.dropWhile Char.isWhitespace).reverse.dropWhile Char.isWhitespace).reverse

/-- Model of Python's `int(s)` on a string: optional sign followed by a digit
run; `none` models the `ValueError` raised on malformed input. -/
def pyInt (s : String) : Option Int :=
  match pyStrip s.data with
  | '+' :: rest => if pyDigitsOk rest then some (digitsVal rest) else none
  | '-' :: rest => if pyDigitsOk rest then some (-(digitsVal rest : Int)) else none
  | l => if pyDigitsOk l then some (digitsVal l) else none

/-- Model of `int(os.environ.get(key, default))` where `default` is already an int:
when the variable is unset the int default is returned unchanged, otherwise
the string value is parsed (raising — `none` — when malformed).
Models bench/bench_utils.py lines 50-58. -/
def envInt (env : Env) (key : String) (d : Int) : Option Int :=
  match env key with
  | none => some d
  | some s => pyInt s

/-- ASCII model of Python's `str.lower()` (the recognized override values are
all ASCII). -/
def pyLower (s : String) : String := String.mk (s.data.map Char.toLower)

/-- The nested `get_bool` helper of `RCloneOptions.from_env`
(bench/bench_utils.py, lines 41-47): lowercase the value (empty string when
unset); `"1"/"true"/"yes"` ↦ `true`, `"0"/"false"/"no"` ↦ `false`, anything
else falls back to the default.  Never fails. -/
def get_bool (env : Env) (key : String) (d : Bool) : Bool :=
  let val := pyLower ((env key).getD "")
  if val = "1" ∨ val = "true" ∨ val = "yes" then true
  else if val = "0" ∨ val = "false" ∨ val = "no" then false
  else d

/-- The classmethod `RCloneOptions.from_env` (bench/bench_utils.py, lines 38-60).  The three
int-typed fields go through Python's `int`, so a malformed override makes the
whole resolution raise (`none`); string fields pass through verbatim;
`fast_list` goes through `get_bool`. -/
def from_env (env : Env) : Option RCloneOptions := do
  let transfers ← envInt env "RCLONE_TRANSFERS" 4
  let mts ← envInt env "RCLONE_MULTI_THREAD_STREAMS" 4
  let vrcs ← envInt env "RCLONE_VFS_READ_CHUNK_STREAMS" 4
  some { transfers := transfers
         multi_thread_streams := mts
         buffer_size := (env "RCLONE_BUFFER_SIZE").getD "16M"
         vfs_cache_max_size := (env "RCLONE_VFS_CACHE_MAX_SIZE").getD "10G"
         vfs_cache_max_age := (env "RCLONE_VFS_CACHE_MAX_AGE").getD "1h"
         vfs_write_back := (env "RCLONE_VFS_WRITE_BACK").getD "5s"
         vfs_read_ahead := (env "RCLONE_VFS_READ_AHEAD").getD "128M"
         vfs_read_chunk_size := (env "RCLONE_VFS_READ_CHUNK_SIZE").getD "128M"
         vfs_read_chunk_streams := vrcs
         fast_list := get_bool env "RCLONE_FAST_LIST" false }

/-! ## `bench/bench_utils.py` — telemetry, bucket lifecycle, mount command -/

/-- Outcome of `requests.post("http://localhost:5572/vfs/stats")` followed by
`r.json()`: the request can fail outright, or return a body that either parses
to a key-value map or fails to parse. -/
inductive RcStatsOutcome
  | connFail
  | resp (body : Option (List (String × String)))
deriving DecidableEq, Repr

/-- The function `get_rclone_stats` (bench/bench_utils.py, lines 117-123): the bare
`except:` catches both the connection failure and a JSON-decode failure and
returns `{}`; the function is total (never raises). -/
def get_rclone_stats : RcStatsOutcome → List (String × String)
  | .connFail => []
  | .resp none => []
  | .resp (some m) => m

/-- A stats outcome that represents a failure (connectivity or non-JSON
body). -/
def statsFailed : RcStatsOutcome → Bool
  | .connFail => true
  | .resp none => true
  | .resp (some _) => false

/-- The remote store as seen through rclone: the list of existing bucket
names. -/
abbrev S3State : Type := List String

/-- The call `manage_bucket("create")` (bench/bench_utils.py, lines 128-131): generates
`rclone-bench-<8 hex chars>` and runs `rclone mkdir s3:<name>` (modelled as
always succeeding for a fresh random suffix); returns the new state and the
name. -/
def manage_bucket_create (st : S3State) (rand : String) : S3State × String :=
  let name := "rclone-bench-" ++ rand
  (name :: st, name)

/-- Command `rclone purge s3:<name>`: removes the bucket and everything in it when it
exists (exit code 0); exits nonzero with "directory not found" when the bucket
does not exist. Returns (new state, exit-ok flag). -/
def rclone_purge (st : S3State) (name : String) : S3State × Bool :=
  if name ∈ st then (st.erase name, true) else (st, false)

/-- The call `manage_bucket("delete", name)` (bench/bench_utils.py, lines 132-133):
`subprocess.run([...purge...], check=True)` — `check=True` raises
`CalledProcessError` (modelled as `.error ()`) whenever the purge command
exits nonzero. -/
def manage_bucket_delete (st : S3State) (name : String) : Except Unit S3State :=
  let r := rclone_purge st name
  if r.2 then .ok r.1 else .error ()

/-- The function `get_mount_cmd` (bench/bench_utils.py, lines 136-155): the fixed flag list,
with `--fast-list` appended exactly when the flag is set. -/
def get_mount_cmd (bucket : String) (mount_path : String) (options : RCloneOptions) :
    List String :=
  let cmd : List String :=
    ["rclone", "mount", "s3:" ++ bucket, mount_path,
     "--vfs-cache-mode", "full",
     "--transfers", toString options.transfers,
     "--checkers", toString (options.transfers * 2),
     "--multi-thread-streams", toString options.multi_thread_streams,
     "--buffer-size", options.buffer_size,
     "--vfs-cache-max-size", options.vfs_cache_max_size,
     "--vfs-cache-max-age", options.vfs_cache_max_age,
     "--vfs-read-ahead", options.vfs_read_ahead,
     "--vfs-read-chunk-size", options.vfs_read_chunk_size,
     "--vfs-read-chunk-streams", toString options.vfs_read_chunk_streams,
     "--vfs-write-back", options.vfs_write_back,
     "--rc"]
  if options.fast_list then cmd ++ ["--fast-list"] else cmd

/-- The function `log_to_jsonl` (bench/bench_utils.py, lines 158-161): appends one
serialized record plus a newline to the file contents. -/
def log_to_jsonl (contents : String) (line : String) : String :=
  contents ++ line ++ "\n"

/-! ## `bench/model_loading.py` — workload driver and orchestration -/

/-- Round-half-to-even to an integer, as Python's builtin `round` behaves on
exact halves. -/
def roundHalfEvenZ (q : ℚ) : ℤ :=
  let f : ℤ := ⌊q⌋
  let r : ℚ := q - f
  if r < 1 / 2 then f
  else if 1 / 2 < r then f + 1
  else if f % 2 = 0 then f else f + 1

/-- Python's `round(x, 2)`: round to two decimal places, halves to even. -/
def pyRound2 (q : ℚ) : ℚ := (roundHalfEvenZ (q * 100) : ℚ) / 100

/-- The benchmark matrix (bench/model_loading.py, line 10). -/
def MODEL_SIZES_GB : List ℕ := [10, 50, 100, 250, 500]

/-- The throughput expression of bench/model_loading.py line 47:
`(bytes_read * 8) / (duration * 1024 * 1024)` megabits per second. -/
def throughput_formula (bytes : ℕ) (duration : ℚ) : ℚ :=
  ((bytes : ℚ) * 8) / (duration * 1024 * 1024)

/-- One KPI record as built by `run_benchmark`
(bench/model_loading.py, lines 52-59).  `duration_sec` and `throughput_mbps`
are stored rounded to two decimals, as in the source. -/
structure Kpis where
  timestamp : ℚ
  model_size_gb : ℕ
  duration_sec : ℚ
  throughput_mbps : ℚ
  bytes_read : ℕ
  vfs_stats : List (String × String)
deriving DecidableEq, Repr

/-- The environment one benchmark case runs against: whether the target file
is present once the bounded existence poll has finished (`appears`), the chunk
sizes the sequential read loop delivers, whether an I/O error interrupts the
open/read (any exception in the `try` block), the measured wall-clock
duration, the timestamp, and the stats-endpoint outcome. -/
structure CaseEnv where
  appears : Bool
  readChunks : List ℕ
  readFails : Bool
  duration : ℚ
  now : ℚ
  size_gb : ℕ
  statsResp : RcStatsOutcome
deriving DecidableEq, Repr

/-- The function `run_benchmark` (bench/model_loading.py, lines 17-62): if the file is
absent when opened (`FileNotFoundError`) or a read error occurs, the
`except Exception` handler returns `None`; otherwise the KPI record is built
from the accumulated byte count and duration.  (When `duration` is zero the
division on line 47 — outside the `try` — would raise `ZeroDivisionError`;
the claims only quantify over positive durations.) -/
def run_benchmark (c : CaseEnv) : Option Kpis :=
  if c.appears && !c.readFails then
    some { timestamp := c.now
           model_size_gb := c.size_gb
           duration_sec := pyRound2 c.duration
           throughput_mbps := pyRound2 (throughput_formula c.readChunks.sum c.duration)
           bytes_read := c.readChunks.sum
           vfs_stats := get_rclone_stats c.statsResp }
  else none

/-- The per-case loop of `main` (bench/model_loading.py, lines 84-89) exactly
as written: a failed case (`run_benchmark` → `None`) appends nothing and the
loop continues; a successful case reaches `log_to_jsonl(result)` — a call
that raises (`log_to_jsonl` is not imported into the module and, resolved as
`bench_utils.log_to_jsonl`, is missing its `filename` argument), so the run
crashes before any record is written.  Returns the list of appended records
and whether the loop raised. -/
def mainLoopWritten : List CaseEnv → List String × Bool
  | [] => ([], false)
  | c :: rest =>
    match run_benchmark c with
    | none => mainLoopWritten rest
    | some _ => ([], true)

/-- The phases of `main` (bench/model_loading.py, lines 65-98) in which an
exception can originate. -/
inductive MainPhase
  | createB
  | mkdirs
  | populate
  | mountStart
  | bench
deriving DecidableEq, Repr, Fintype

/-- Whether `mount_proc` is bound in `main`'s local scope when the `finally`
block runs, i.e. whether `subprocess.Popen(mount_cmd)` returned: it did not
if an earlier phase raised (or `Popen` itself did). -/
def mount_launched : Option MainPhase → Bool
  | some .createB | some .mkdirs | some .populate | some .mountStart => false
  | _ => true

/-- Observable resource events of one `main` run. -/
inductive MainEvent
  | bucketCreated
  | unmountAttempt
  | terminateAttempt
  | deleteAttempt
  | raised
deriving DecidableEq, Repr

/-- The resource-event trace of `main` (bench/model_loading.py, lines 65-98)
when the first (if any) exception originates in phase `failAt`:
* `manage_bucket("create")` raising (line 68) leaves nothing to clean up;
* `os.makedirs` (line 69) runs after bucket creation but BEFORE the
  `try` block, so an exception there propagates without reaching `finally`;
* any exception inside the `try` block (populate, mount, bench loop) runs
  the `finally` block: lazy `umount` (no `check`, never raises), then
  `mount_proc.terminate()` if `mount_proc` is bound, then exactly one
  `manage_bucket("delete", bucket)` call, then the exception propagates. -/
def mainTrace (failAt : Option MainPhase) : List MainEvent :=
  match failAt with
  | some .createB => [.raised]
  | some .mkdirs => [.bucketCreated, .raised]
  | _ =>
    [MainEvent.bucketCreated]
      ++ ([MainEvent.unmountAttempt]
            ++ (if mount_launched failAt then [MainEvent.terminateAttempt] else [])
            ++ [MainEvent.deleteAttempt])
      ++ (if failAt.isSome then [MainEvent.raised] else [])

/-! ## `scripts/dataset_prefill.py` — small-object populator -/

/-- Modelled from the spec: `bench/dataset_read.py` (imported by
scripts/dataset_prefill.py line 8 for `NUM_FILES` and `SHARDS`) is not under
src/; the spec gives "a total file count (default 10,000)". -/
def NUM_FILES : ℕ := 10000

/-- Modelled from the spec: `bench/dataset_read.py` is not under src/; the
spec gives "partitioned evenly across a fixed number of shard prefixes
(default 4)". -/
def SHARDS : ℕ := 4

/-- scripts/dataset_prefill.py line 11: the intended payload size ("4KB"). -/
def FILE_SIZE_BYTES : ℕ := 4096

/-- scripts/dataset_prefill.py line 12: `NUM_FILES // SHARDS`. -/
def FILES_PER_SHARD : ℕ := NUM_FILES / SHARDS

/-- The object key built in `generate_small_file_rcat`
(scripts/dataset_prefill.py line 16): `dataset/shard_<s>/d_<i>.bin`. -/
def smallKey (s i : ℕ) : String :=
  "dataset/shard_" ++ toString s ++ "/d_" ++ toString i ++ ".bin"

/-- The bytes `echo '<buf>' | rclone rcat …` actually uploads: the buffer
(alphanumeric, so shell quoting passes it through unchanged) plus the
trailing newline `echo` appends. -/
def echoPipe (buf : String) : String := buf ++ "\n"

/-- The function `generate_small_file_rcat` (scripts/dataset_prefill.py, lines 14-24) over
an upload oracle `fails` saying which `(shard, index)` uploads the provider
rejects: `subprocess.run(..., check=True)` raises on a failed upload;
otherwise the object `(key, payload)` is stored. -/
def generate_small_file_rcat (fails : ℕ → ℕ → Bool) (s i : ℕ) (buf : String) :
    Except Unit (String × String) :=
  if fails s i then .error () else .ok (smallKey s i, echoPipe buf)

/-- One iteration of the inner loop of `populate_dataset`
(scripts/dataset_prefill.py, lines 40-46).  State: (objects uploaded so far,
index into the buffer stream `bufs`).  After every 100 files of a shard the
buffer is regenerated (`data_buffer = ...` on line 46), modelled by bumping
the stream index. -/
def popStep (fails : ℕ → ℕ → Bool) (bufs : ℕ → String) (s : ℕ)
    (acc : List (String × String) × ℕ) (i : ℕ) :
    Except Unit (List (String × String) × ℕ) :=
  match generate_small_file_rcat fails s i (bufs acc.2) with
  | .error e => .error e
  | .ok kv => .ok (acc.1 ++ [kv], if (i + 1) % 100 = 0 then acc.2 + 1 else acc.2)

/-- The function `populate_dataset` (scripts/dataset_prefill.py, lines 26-54): for each
shard `s < SHARDS`, upload `FILES_PER_SHARD` files in order; any raised
upload error propagates immediately (there is no handler).  `bufs n` is the
`n`-th pseudo-random buffer drawn by `random.choices` (the initial buffer is
`bufs 0`); only its length matters to the claims. -/
def populate_dataset (fails : ℕ → ℕ → Bool) (bufs : ℕ → String) :
    Except Unit (List (String × String)) :=
  ((List.range SHARDS).foldlM
      (fun acc s => (List.range FILES_PER_SHARD).foldlM (popStep fails bufs s) acc)
      (([], 0) : List (String × String) × ℕ)).map Prod.fst

/-- A provider that accepts every upload. -/
def noFail : ℕ → ℕ → Bool := fun _ _ => false

/-- The full key sequence small-object population uploads, shard by shard. -/
def expectedSmallKeys : List String :=
  (List.range SHARDS).flatMap fun s => (List.range FILES_PER_SHARD).map (smallKey s)

/-! ## `scripts/model_data_prefill.py` — large-object populator -/

/-- The function `populate_bucket` (scripts/model_data_prefill.py, lines 20-33) seen over
the completion-ordered outcomes of the submitted upload tasks (the
`ThreadPoolExecutor` join guarantees the full outcome list exists before the
`with` block is left): `future.result()` inside `for future in as_completed`
re-raises the first failed future's error; with no failure the pool drains
and the function returns normally. -/
def populate_bucket {E : Type} : List (Except E Unit) → Except E Unit
  | [] => .ok ()
  | .ok _ :: rest => populate_bucket rest
  | .error e :: _ => .error e

/-! ## Concrete inputs used by counterexamples and witnesses -/

/-- An environment overriding `RCLONE_TRANSFERS` with a non-numeric value. -/
def envMalformed : Env := fun k => if k = "RCLONE_TRANSFERS" then some "abc" else none

/-- An environment overriding `RCLONE_TRANSFERS` with `"0"` (well-formed but
non-positive). -/
def envZero : Env := fun k => if k = "RCLONE_TRANSFERS" then some "0" else none

/-- An environment with a well-formed numeric override and a malformed boolean
override. -/
def envMixed : Env := fun k =>
  if k = "RCLONE_TRANSFERS" then some "8"
  else if k = "RCLONE_FAST_LIST" then some "banana"
  else none

/-- A successful benchmark case reading a single 1-byte chunk in 1 second. -/
def cEnvTiny : CaseEnv :=
  { appears := true, readChunks := [1], readFails := false,
    duration := 1, now := 0, size_gb := 10, statsResp := .resp (some []) }

/-- A benchmark case whose target file never appears within the timeout. -/
def cEnvAbsent : CaseEnv :=
  { appears := false, readChunks := [], readFails := false,
    duration := 1, now := 0, size_gb := 10, statsResp := .connFail }

/-- A successful benchmark case reading 256 MiB in 2 seconds. -/
def cEnvBig : CaseEnv :=
  { appears := true, readChunks := [256 * 1024 * 1024], readFails := false,
    duration := 2, now := 0, size_gb := 250, statsResp := .resp (some []) }

/-- A fixed 4096-character buffer (the populator's buffers are alphanumeric
and only their length matters to the claims). -/
def constBuf : String := String.mk (List.replicate FILE_SIZE_BYTES 'a')

/-- A buffer stream that always yields `constBuf`. -/
def constBufs : ℕ → String := fun _ => constBuf

/-- An upload oracle that rejects exactly the upload of file 1 of shard 0. -/
def failAt01 : ℕ → ℕ → Bool := fun s i => s == 0 && i == 1

/-! ## Helper lemmas about the populators -/

lemma popStep_noFail (bufs : ℕ → String) (s : ℕ)
    (acc : List (String × String) × ℕ) (i : ℕ) :
    popStep noFail bufs s acc i
      = .ok (acc.1 ++ [(smallKey s i, echoPipe (bufs acc.2))],
             if (i + 1) % 100 = 0 then acc.2 + 1 else acc.2) := rfl

/-- Characterization of one shard's inner upload loop when no upload fails:
it appends one object per index, with the expected keys in order and every
payload drawn from the buffer stream through `echoPipe`. -/
lemma inner_loop_spec (bufs : ℕ → String) (s : ℕ) :
    ∀ (l : List ℕ) (st : List (String × String)) (bi : ℕ),
      ∃ new bi2,
        l.foldlM (popStep noFail bufs s) (st, bi) = .ok (st ++ new, bi2)
        ∧ new.map Prod.fst = l.map (smallKey s)
        ∧ ∀ p ∈ new, ∃ n, p.2 = echoPipe (bufs n) := by
  intro l
  induction l with
  | nil => exact fun st bi => ⟨[], bi, by simp [pure, Except.pure], by simp, by simp⟩
  | cons a l ih =>
    intro st bi
    obtain ⟨new, bi2, h1, h2, h3⟩ :=
      ih (st ++ [(smallKey s a, echoPipe (bufs bi))])
        (if (a + 1) % 100 = 0 then bi + 1 else bi)
    refine ⟨(smallKey s a, echoPipe (bufs bi)) :: new, bi2, ?_, ?_, ?_⟩
    · rw [List.foldlM_cons, popStep_noFail]
      show (List.foldlM (popStep noFail bufs s)
        (st ++ [(smallKey s a, echoPipe (bufs bi))],
         if (a + 1) % 100 = 0 then bi + 1 else bi) l) = _
      simpa using h1
    · simp [h2]
    · intro p hp
      rcases List.mem_cons.mp hp with rfl | hp
      · exact ⟨bi, rfl⟩
      · exact h3 p hp

/-- Characterization of the full shard loop when no upload fails. -/
lemma outer_loop_spec (bufs : ℕ → String) :
    ∀ (L : List ℕ) (st : List (String × String)) (bi : ℕ),
      ∃ new bi2,
        L.foldlM
            (fun acc s => (List.range FILES_PER_SHARD).foldlM (popStep noFail bufs s) acc)
            (st, bi)
          = .ok (st ++ new, bi2)
        ∧ new.map Prod.fst
            = L.flatMap (fun s => (List.range FILES_PER_SHARD).map (smallKey s))
        ∧ ∀ p ∈ new, ∃ n, p.2 = echoPipe (bufs n) := by
  intro L
  induction L with
  | nil => exact fun st bi => ⟨[], bi, by simp [pure, Except.pure], by simp, by simp⟩
  | cons s L ih =>
    intro st bi
    obtain ⟨new1, bi1, g1, g2, g3⟩ := inner_loop_spec bufs s (List.range FILES_PER_SHARD) st bi
    obtain ⟨new2, bi2, h1, h2, h3⟩ := ih (st ++ new1) bi1
    refine ⟨new1 ++ new2, bi2, ?_, ?_, ?_⟩
    · rw [List.foldlM_cons, g1]
      show L.foldlM _ (st ++ new1, bi1) = _
      simpa using h1
    · simp [h2, g2]
    · intro p hp
      rcases List.mem_append.mp hp with hp | hp
      · exact g3 p hp
      · exact h3 p hp

/-- With every upload accepted, small-object population completes and uploads
exactly the expected key sequence, every payload coming from the buffer
stream through `echoPipe`. -/
lemma populate_dataset_noFail (bufs : ℕ → String) :
    ∃ store, populate_dataset noFail bufs = .ok store
      ∧ store.map Prod.fst = expectedSmallKeys
      ∧ ∀ p ∈ store, ∃ n, p.2 = echoPipe (bufs n) := by
  obtain ⟨new, bi2, h1, h2, h3⟩ := outer_loop_spec bufs (List.range SHARDS) [] 0
  refine ⟨new, ?_, h2, h3⟩
  rw [populate_dataset, h1]
  simp [Except.map]

lemma flatMap_shard_length (n : ℕ) :
    ∀ L : List ℕ, (L.flatMap fun s => (List.range n).map (smallKey s)).length = L.length * n := by
  intro L
  induction L with
  | nil => simp
  | cons a L ih => simp [ih, Nat.succ_mul, Nat.add_comm]

lemma expectedSmallKeys_length : expectedSmallKeys.length = NUM_FILES := by
  rw [expectedSmallKeys, flatMap_shard_length]
  simp [SHARDS, FILES_PER_SHARD, NUM_FILES]

lemma echoPipe_length (b : String) : (echoPipe b).length = b.length + 1 := by
  simp [echoPipe]
  decide

lemma constBuf_length : constBuf.length = FILE_SIZE_BYTES := by
  show (String.mk (List.replicate FILE_SIZE_BYTES 'a')).data.length = FILE_SIZE_BYTES
  simp

/-- If a run of the inner upload loop returns at all, none of its scheduled
uploads failed (a failed upload raises out of the loop). -/
lemma inner_loop_ok (fails : ℕ → ℕ → Bool) (bufs : ℕ → String) (s : ℕ) :
    ∀ (l : List ℕ) (acc : List (String × String) × ℕ) res,
      l.foldlM (popStep fails bufs s) acc = .ok res → ∀ i ∈ l, fails s i = false := by
  intro l
  induction l with
  | nil => intro acc res _ i hi; simp at hi
  | cons a l ih =>
    intro acc res h i hi
    rw [List.foldlM_cons] at h
    cases hf : fails s a with
    | true =>
      rw [show popStep fails bufs s acc a = .error () by
            simp [popStep, generate_small_file_rcat, hf]] at h
      simp [Bind.bind, Except.bind] at h
    | false =>
      rw [show popStep fails bufs s acc a
            = .ok (acc.1 ++ [(smallKey s a, echoPipe (bufs acc.2))],
                   if (a + 1) % 100 = 0 then acc.2 + 1 else acc.2) by
            simp [popStep, generate_small_file_rcat, hf]] at h
      rcases List.mem_cons.mp hi with rfl | hi
      · exact hf
      · exact ih _ res (by simpa using h) i hi

/-- If the full shard loop returns at all, no scheduled upload failed. -/
lemma outer_loop_ok (fails : ℕ → ℕ → Bool) (bufs : ℕ → String) :
    ∀ (L : List ℕ) (acc : List (String × String) × ℕ) res,
      L.foldlM
          (fun acc s => (List.range FILES_PER_SHARD).foldlM (popStep fails bufs s) acc)
          acc
        = .ok res →
      ∀ s ∈ L, ∀ i ∈ List.range FILES_PER_SHARD, fails s i = false := by
  intro L
  induction L with
  | nil => intro acc res _ s hs; simp at hs
  | cons a L ih =>
    intro acc res h s hs i hi
    rw [List.foldlM_cons] at h
    cases hin : (List.range FILES_PER_SHARD).foldlM (popStep fails bufs a) acc with
    | error e => rw [hin] at h; simp [Bind.bind, Except.bind] at h
    | ok mid =>
      rw [hin] at h
      rcases List.mem_cons.mp hs with rfl | hs
      · exact inner_loop_ok fails bufs s _ _ _ hin i hi
      · exact ih _ res (by simpa using h) s hs i hi

/-! ## Claim theorems -/

/-- C1 (counterexample): the claim fails for an exception raised in the
directory-setup phase.  `os.makedirs(MOUNT_PATH, exist_ok=True)` runs after
`manage_bucket("create")` but BEFORE the `try` block of `main`, so when it
raises, bucket creation has succeeded yet neither an unmount nor any bucket
deletion is attempted. -/
theorem C1_mkdirs_escapes_cleanup :
    MainEvent.bucketCreated ∈ mainTrace (some MainPhase.mkdirs)
    ∧ (mainTrace (some MainPhase.mkdirs)).count MainEvent.deleteAttempt = 0
    ∧ MainEvent.unmountAttempt ∉ mainTrace (some MainPhase.mkdirs) := by
  decide

/-- C1 (amended): for every run of `main` in which bucket creation succeeds
and no exception originates in the directory-setup phase — i.e. normal
completion or a failure in population, mount launch or benchmarking — the
run attempts the lazy unmount, terminates the mount process when one was
started, attempts exactly one bucket deletion, and only then propagates the
failure. -/
theorem C1_cleanup_on_exit (failAt : Option MainPhase)
    (h : failAt ≠ some MainPhase.mkdirs) :
    MainEvent.bucketCreated ∈ mainTrace failAt →
      (mainTrace failAt).count MainEvent.deleteAttempt = 1
      ∧ MainEvent.unmountAttempt ∈ mainTrace failAt
      ∧ (mount_launched failAt = true → MainEvent.terminateAttempt ∈ mainTrace failAt)
      ∧ (failAt.isSome = true → (mainTrace failAt).getLast? = some MainEvent.raised) := by
  cases failAt with
  | none => decide
  | some p => cases p <;> first | exact absurd rfl h | decide

/-- C1 (witness): the cleanup guarantee evaluated at a population failure. -/
theorem C1_cleanup_on_exit_witness :
    (mainTrace (some MainPhase.populate)).count MainEvent.deleteAttempt = 1
    ∧ MainEvent.unmountAttempt ∈ mainTrace (some MainPhase.populate)
    ∧ (mount_launched (some MainPhase.populate) = true →
        MainEvent.terminateAttempt ∈ mainTrace (some MainPhase.populate))
    ∧ ((some MainPhase.populate).isSome = true →
        (mainTrace (some MainPhase.populate)).getLast? = some MainEvent.raised) :=
  C1_cleanup_on_exit (some MainPhase.populate) (by decide) (by decide)

/-- C3 (counterexample): the logged `throughput_mbps` field is rounded to two
decimals, so for a case reading 1 byte in 1 second the reported value (0.0)
differs from `(bytes_read * 8) / (duration * 1024 * 1024)` = 1/131072. -/
theorem C3_reported_rounding :
    (run_benchmark cEnvTiny).map Kpis.throughput_mbps
      ≠ some (throughput_formula cEnvTiny.readChunks.sum cEnvTiny.duration)
    ∧ (run_benchmark cEnvTiny).map Kpis.throughput_mbps = some 0 := by
  have hmap : (run_benchmark cEnvTiny).map Kpis.throughput_mbps
      = some (pyRound2 (throughput_formula cEnvTiny.readChunks.sum cEnvTiny.duration)) := rfl
  have hf : throughput_formula cEnvTiny.readChunks.sum cEnvTiny.duration = 1 / 131072 := by
    norm_num [throughput_formula, cEnvTiny]
  have hr : pyRound2 (1 / 131072 : ℚ) = 0 := by
    rw [pyRound2, roundHalfEvenZ]
    norm_num
  rw [hmap, hf, hr]
  norm_num

/-- C3 (amended): for every benchmark case with positive duration whose file
appears and whose read succeeds, the reported `throughput_mbps` equals
`(bytes_read * 8) / (duration * 1024 * 1024)` rounded to two decimal places
(the rounding Python's `round(x, 2)` applies on line 56); in particular, for
duration 2.0 s and 256 MiB read the reported value is exactly 1024.0. -/
theorem C3_throughput (c : CaseEnv) (h1 : c.appears = true)
    (h2 : c.readFails = false) (_h3 : 0 < c.duration) :
    (run_benchmark c).map Kpis.throughput_mbps
      = some (pyRound2 (throughput_formula c.readChunks.sum c.duration))
    ∧ (c.duration = 2 → c.readChunks.sum = 256 * 1024 * 1024 →
        (run_benchmark c).map Kpis.throughput_mbps = some 1024) := by
  have hmap : (run_benchmark c).map Kpis.throughput_mbps
      = some (pyRound2 (throughput_formula c.readChunks.sum c.duration)) := by
    simp [run_benchmark, h1, h2]
  refine ⟨hmap, fun hd hb => ?_⟩
  rw [hmap, hd, hb]
  have hf : throughput_formula (256 * 1024 * 1024) 2 = 1024 := by
    norm_num [throughput_formula]
  rw [hf, pyRound2, roundHalfEvenZ]
  norm_num

/-- C3 (witness): the 256 MiB / 2 s case reports exactly 1024.0 Mbps. -/
theorem C3_throughput_witness :
    (run_benchmark cEnvBig).map Kpis.throughput_mbps = some 1024 :=
  (C3_throughput cEnvBig rfl rfl (by decide)).2 rfl rfl

/-- C4 (code evaluated at the failing input): `manage_bucket("delete")` runs
`rclone purge` with `check=True`, and purging a bucket that does not exist
exits nonzero, so deleting a never-created bucket — or deleting the same
bucket twice (the second call sees the bucket already gone) — raises
`CalledProcessError` instead of being a no-op.  Deleting an existing bucket
succeeds and removes it. -/
theorem C4_delete_raises_when_absent :
    manage_bucket_delete ([] : S3State) "rclone-bench-00000000" = Except.error ()
    ∧ manage_bucket_create [] "00000000"
        = (["rclone-bench-00000000"], "rclone-bench-00000000")
    ∧ manage_bucket_delete ["rclone-bench-00000000"] "rclone-bench-00000000"
        = Except.ok [] := by
  refine ⟨by simp [manage_bucket_delete, rclone_purge], rfl,
    by simp [manage_bucket_delete, rclone_purge]⟩

/-- C5 (code evaluated at the failing input): with one executed case and zero
case-local failures the claim demands exactly one appended record, but the
loop body's `log_to_jsonl(result)` call raises (the name is not imported,
and even resolved as `bench_utils.log_to_jsonl` it lacks the `filename`
argument), so the run crashes with zero records appended. -/
theorem C5_successful_case_crashes_logging :
    (run_benchmark cEnvTiny).isSome = true
    ∧ mainLoopWritten [cEnvTiny] = ([], true) := by
  decide

/-- C8: a benchmark case whose file never appears within the timeout, or
whose read raises, yields `None` rather than raising, and the orchestration
loop appends nothing for it and continues with the remaining cases. -/
theorem C8_failed_case_is_skipped (c : CaseEnv) (cs : List CaseEnv)
    (h : c.appears = false ∨ c.readFails = true) :
    run_benchmark c = none
    ∧ mainLoopWritten (c :: cs) = mainLoopWritten cs := by
  have hrb : run_benchmark c = none := by
    rcases h with h | h <;> simp [run_benchmark, h]
  exact ⟨hrb, by simp [mainLoopWritten, hrb]⟩

/-- C8 (witness): a file-never-appears case produces no result and leaves the
loop state unchanged. -/
theorem C8_failed_case_is_skipped_witness :
    run_benchmark cEnvAbsent = none
    ∧ mainLoopWritten [cEnvAbsent] = mainLoopWritten [] :=
  C8_failed_case_is_skipped cEnvAbsent [] (Or.inl rfl)

/-- C9: sampling mount telemetry is total — a connectivity failure or a
non-JSON body yields the empty map, and a parsed body is returned as-is. -/
theorem C9_stats_best_effort (o : RcStatsOutcome) :
    (statsFailed o = true → get_rclone_stats o = [])
    ∧ (∀ m, o = RcStatsOutcome.resp (some m) → get_rclone_stats o = m) := by
  cases o with
  | connFail => exact ⟨fun _ => rfl, by simp⟩
  | resp b => cases b <;> constructor <;> simp [get_rclone_stats, statsFailed]

/-- C9 (witness): a connection failure yields the empty snapshot, a parsed
body is passed through. -/
theorem C9_stats_best_effort_witness :
    get_rclone_stats RcStatsOutcome.connFail = []
    ∧ get_rclone_stats (RcStatsOutcome.resp (some [("reads", "3")])) = [("reads", "3")] :=
  ⟨(C9_stats_best_effort RcStatsOutcome.connFail).1 rfl,
   (C9_stats_best_effort (RcStatsOutcome.resp (some [("reads", "3")]))).2 [("reads", "3")] rfl⟩

/-- C2 (counterexample): resolving the options from an environment whose
`RCLONE_TRANSFERS` is `"abc"` raises (Python's `int` raises `ValueError`;
the default is NOT retained), and a well-formed `"0"` override produces a
non-positive `transfers` field. -/
theorem C2_malformed_numeric_raises :
    from_env envMalformed = none
    ∧ (from_env envZero).map RCloneOptions.transfers = some 0 := by
  constructor
  · rfl
  · rfl

/-- Unfolding of `from_env` when all three numeric overrides resolve. -/
lemma from_env_eq (env : Env) {a b c : Int}
    (h1 : envInt env "RCLONE_TRANSFERS" 4 = some a)
    (h2 : envInt env "RCLONE_MULTI_THREAD_STREAMS" 4 = some b)
    (h3 : envInt env "RCLONE_VFS_READ_CHUNK_STREAMS" 4 = some c) :
    from_env env = some
      { transfers := a
        multi_thread_streams := b
        buffer_size := (env "RCLONE_BUFFER_SIZE").getD "16M"
        vfs_cache_max_size := (env "RCLONE_VFS_CACHE_MAX_SIZE").getD "10G"
        vfs_cache_max_age := (env "RCLONE_VFS_CACHE_MAX_AGE").getD "1h"
        vfs_write_back := (env "RCLONE_VFS_WRITE_BACK").getD "5s"
        vfs_read_ahead := (env "RCLONE_VFS_READ_AHEAD").getD "128M"
        vfs_read_chunk_size := (env "RCLONE_VFS_READ_CHUNK_SIZE").getD "128M"
        vfs_read_chunk_streams := c
        fast_list := get_bool env "RCLONE_FAST_LIST" false } := by
  unfold from_env
  rw [h1, h2, h3]
  rfl

/-- C2 (amended): resolution raises exactly when one of the three numeric
overrides is present and fails to parse as a Python int; when it succeeds,
each numeric field is the parsed override (or the built-in default when
unset) — which may be non-positive — and the boolean field always resolves
through `get_bool`, whose malformed overrides fall back to the default
without raising. -/
theorem C2_env_resolution (env : Env) :
    (from_env env = none ↔
      (envInt env "RCLONE_TRANSFERS" 4 = none
       ∨ envInt env "RCLONE_MULTI_THREAD_STREAMS" 4 = none
       ∨ envInt env "RCLONE_VFS_READ_CHUNK_STREAMS" 4 = none))
    ∧ (∀ o, from_env env = some o →
        some o.transfers = envInt env "RCLONE_TRANSFERS" 4
        ∧ some o.multi_thread_streams = envInt env "RCLONE_MULTI_THREAD_STREAMS" 4
        ∧ some o.vfs_read_chunk_streams = envInt env "RCLONE_VFS_READ_CHUNK_STREAMS" 4
        ∧ o.fast_list = get_bool env "RCLONE_FAST_LIST" false)
    ∧ (∀ v, env "RCLONE_FAST_LIST" = some v →
        pyLower v ≠ "1" → pyLower v ≠ "true" → pyLower v ≠ "yes" →
        pyLower v ≠ "0" → pyLower v ≠ "false" → pyLower v ≠ "no" →
        get_bool env "RCLONE_FAST_LIST" false = false) := by
  refine ⟨?_, ?_, ?_⟩
  · cases h1 : envInt env "RCLONE_TRANSFERS" 4 <;>
      cases h2 : envInt env "RCLONE_MULTI_THREAD_STREAMS" 4 <;>
        cases h3 : envInt env "RCLONE_VFS_READ_CHUNK_STREAMS" 4 <;>
          simp [from_env, h1, h2, h3]
  · intro o ho
    cases h1 : envInt env "RCLONE_TRANSFERS" 4 with
    | none => simp [from_env, h1] at ho
    | some a =>
      cases h2 : envInt env "RCLONE_MULTI_THREAD_STREAMS" 4 with
      | none => simp [from_env, h1, h2] at ho
      | some b =>
        cases h3 : envInt env "RCLONE_VFS_READ_CHUNK_STREAMS" 4 with
        | none => simp [from_env, h1, h2, h3] at ho
        | some c =>
          rw [from_env_eq env h1 h2 h3, Option.some.injEq] at ho
          subst ho
          exact ⟨rfl, rfl, rfl, rfl⟩
  · intro v hv n1 n2 n3 n4 n5 n6
    simp [get_bool, hv, n1, n2, n3, n4, n5, n6]

/-- C2 (witness): a well-formed `"8"` numeric override is adopted and a
malformed `"banana"` boolean override falls back to the default. -/
theorem C2_env_resolution_witness :
    some (8 : Int) = envInt envMixed "RCLONE_TRANSFERS" 4
    ∧ get_bool envMixed "RCLONE_FAST_LIST" false = false :=
  ⟨((C2_env_resolution envMixed).2.1 { transfers := 8 } (by rfl)).1,
   (C2_env_resolution envMixed).2.2 "banana" (by rfl) (by decide) (by decide)
     (by decide) (by decide) (by decide) (by decide)⟩

/-- C6 (code evaluated at the failing input): small-object population over an
all-accepting provider uploads exactly `NUM_FILES` = 10000 objects whose key
sequence is, shard by shard, `dataset/shard_<s>/d_<i>.bin` for `s < SHARDS`
and `i < FILES_PER_SHARD` (so each of the 4 shard prefixes receives exactly
2500 = `FILES_PER_SHARD` objects) — but every uploaded payload is
`FILE_SIZE_BYTES + 1` = 4097 bytes, not the configured 4096: the
`echo '<buffer>' | rclone rcat` pipeline appends a trailing newline to the
4096-byte buffer. -/
theorem C6_population_shape :
    (populate_dataset noFail constBufs).map (List.map Prod.fst) = .ok expectedSmallKeys
    ∧ (populate_dataset noFail constBufs).map List.length = .ok NUM_FILES
    ∧ (populate_dataset noFail constBufs).map
        (fun st => st.all fun p => p.2.length == FILE_SIZE_BYTES + 1) = .ok true
    ∧ expectedSmallKeys.length = NUM_FILES
    ∧ NUM_FILES = SHARDS * FILES_PER_SHARD := by
  obtain ⟨store, hok, hkeys, hpay⟩ := populate_dataset_noFail constBufs
  refine ⟨?_, ?_, ?_, expectedSmallKeys_length, by decide⟩
  · rw [hok, Except.map, hkeys]
  · rw [hok, Except.map]
    have : store.length = expectedSmallKeys.length := by
      rw [← hkeys, List.length_map]
    rw [this, expectedSmallKeys_length]
  · rw [hok, Except.map]
    have : store.all (fun p => p.2.length == FILE_SIZE_BYTES + 1) = true := by
      rw [List.all_eq_true]
      intro p hp
      obtain ⟨n, hn⟩ := hpay p hp
      rw [hn, beq_iff_eq, echoPipe_length]
      simp [constBufs, constBuf_length]
    rw [this]

/-- C7: in both population paths a single failed upload makes the populate
phase raise: the large-object pool (`populate_bucket`) surfaces the first
failed future's error after the pool join, and the small-object loop
(`populate_dataset`) propagates the `CalledProcessError` of any scheduled
upload, never completing silently. -/
theorem C7_upload_failure_fatal :
    (∀ (pre post : List (Except ℕ Unit)) (e : ℕ),
        (∀ o ∈ pre, o = .ok ()) →
        populate_bucket (pre ++ .error e :: post) = .error e)
    ∧ (∀ (fails : ℕ → ℕ → Bool) (bufs : ℕ → String) (s i : ℕ),
        s < SHARDS → i < FILES_PER_SHARD → fails s i = true →
        populate_dataset fails bufs = .error ()) := by
  constructor
  · intro pre post e hpre
    induction pre with
    | nil => rfl
    | cons o pre ih =>
      have ho : o = .ok () := hpre o (List.mem_cons_self o pre)
      subst ho
      exact ih fun o ho' => hpre o (List.mem_cons_of_mem _ ho')
  · intro fails bufs s i hs hi hf
    cases hX : (List.range SHARDS).foldlM
        (fun acc s => (List.range FILES_PER_SHARD).foldlM (popStep fails bufs s) acc)
        (([], 0) : List (String × String) × ℕ) with
    | error e => cases e; simp [populate_dataset, hX, Except.map]
    | ok pair =>
      exact absurd
        (outer_loop_ok fails bufs (List.range SHARDS) _ _ hX s
          (List.mem_range.mpr hs) i (List.mem_range.mpr hi))
        (by simp [hf])

/-- C7 (witness): the pool surfaces the first error (7) of the completion
order, and a failure on shard 0's file 1 aborts small-object population. -/
theorem C7_upload_failure_fatal_witness :
    populate_bucket [Except.ok (), Except.error 7, Except.error 9] = Except.error 7
    ∧ populate_dataset failAt01 constBufs = Except.error () :=
  ⟨C7_upload_failure_fatal.1 [.ok ()] [.error 9] 7 (by intro o ho; simpa using ho),
   C7_upload_failure_fatal.2 failAt01 constBufs 0 1 (by decide) (by decide) rfl⟩

/-- No bucket argument can make the third element of the mount command equal
the literal `--fast-list`, since it always starts with `s3:`. -/
lemma s3_bucket_ne_fast_list (b : String) : "s3:" ++ b ≠ "--fast-list" := by
  intro h
  have h2 : (['s', '3', ':'] : List Char) ++ b.data = "--fast-list".data := by
    have := congrArg String.data h
    rwa [String.data_append] at this
  simp at h2

/-- C10 (counterexample): membership of `--fast-list` in the command is not
equivalent to the flag for EVERY mount path: a mount path that is itself the
literal `--fast-list` puts the token in the command while the flag is false. -/
theorem C10_fast_list_counterexample :
    "--fast-list" ∈ get_mount_cmd "b" "--fast-list" {}
    ∧ ({} : RCloneOptions).fast_list = false := by
  constructor
  · simp [get_mount_cmd]
  · rfl

/-- C10 (amended): the constructed mount command always contains the adjacent
pair `--vfs-cache-mode full`, contains `--rc`, sets `--checkers` to exactly
twice the `transfers` field, and always appends `--fast-list` when the flag
is set; membership of `--fast-list` is equivalent to the flag whenever the
mount path and the caller-controlled option strings are not themselves the
literal `--fast-list`. -/
theorem C10_mount_cmd_flags (bucket mount_path : String) (o : RCloneOptions) :
    (∃ u v, get_mount_cmd bucket mount_path o = u ++ ["--vfs-cache-mode", "full"] ++ v)
    ∧ "--rc" ∈ get_mount_cmd bucket mount_path o
    ∧ (∃ u v, get_mount_cmd bucket mount_path o
        = u ++ ["--checkers", toString (o.transfers * 2)] ++ v)
    ∧ (o.fast_list = true → "--fast-list" ∈ get_mount_cmd bucket mount_path o)
    ∧ (mount_path ≠ "--fast-list" →
       o.buffer_size ≠ "--fast-list" → o.vfs_cache_max_size ≠ "--fast-list" →
       o.vfs_cache_max_age ≠ "--fast-list" → o.vfs_read_ahead ≠ "--fast-list" →
       o.vfs_read_chunk_size ≠ "--fast-list" → o.vfs_write_back ≠ "--fast-list" →
       toString o.transfers ≠ "--fast-list" →
       toString (o.transfers * 2) ≠ "--fast-list" →
       toString o.multi_thread_streams ≠ "--fast-list" →
       toString o.vfs_read_chunk_streams ≠ "--fast-list" →
       ("--fast-list" ∈ get_mount_cmd bucket mount_path o ↔ o.fast_list = true)) := by
  cases hfl : o.fast_list with
  | true =>
    have hcmd : get_mount_cmd bucket mount_path o
        = ["rclone", "mount", "s3:" ++ bucket, mount_path, "--vfs-cache-mode", "full",
           "--transfers", toString o.transfers, "--checkers", toString (o.transfers * 2),
           "--multi-thread-streams", toString o.multi_thread_streams,
           "--buffer-size", o.buffer_size, "--vfs-cache-max-size", o.vfs_cache_max_size,
           "--vfs-cache-max-age", o.vfs_cache_max_age, "--vfs-read-ahead", o.vfs_read_ahead,
           "--vfs-read-chunk-size", o.vfs_read_chunk_size,
           "--vfs-read-chunk-streams", toString o.vfs_read_chunk_streams,
           "--vfs-write-back", o.vfs_write_back, "--rc", "--fast-list"] := by
      simp [get_mount_cmd, hfl]
    refine ⟨⟨["rclone", "mount", "s3:" ++ bucket, mount_path],
            ["--transfers", toString o.transfers, "--checkers", toString (o.transfers * 2),
             "--multi-thread-streams", toString o.multi_thread_streams,
             "--buffer-size", o.buffer_size, "--vfs-cache-max-size", o.vfs_cache_max_size,
             "--vfs-cache-max-age", o.vfs_cache_max_age, "--vfs-read-ahead", o.vfs_read_ahead,
             "--vfs-read-chunk-size", o.vfs_read_chunk_size,
             "--vfs-read-chunk-streams", toString o.vfs_read_chunk_streams,
             "--vfs-write-back", o.vfs_write_back, "--rc", "--fast-list"],
            by rw [hcmd]; rfl⟩,
           by rw [hcmd]; simp,
           ⟨["rclone", "mount", "s3:" ++ bucket, mount_path, "--vfs-cache-mode", "full",
             "--transfers", toString o.transfers],
            ["--multi-thread-streams", toString o.multi_thread_streams,
             "--buffer-size", o.buffer_size, "--vfs-cache-max-size", o.vfs_cache_max_size,
             "--vfs-cache-max-age", o.vfs_cache_max_age, "--vfs-read-ahead", o.vfs_read_ahead,
             "--vfs-read-chunk-size", o.vfs_read_chunk_size,
             "--vfs-read-chunk-streams", toString o.vfs_read_chunk_streams,
             "--vfs-write-back", o.vfs_write_back, "--rc", "--fast-list"],
            by rw [hcmd]; rfl⟩,
           fun _ => by rw [hcmd]; simp,
           fun _ _ _ _ _ _ _ _ _ _ _ => by rw [hcmd]; simp⟩
  | false =>
    have hcmd : get_mount_cmd bucket mount_path o
        = ["rclone", "mount", "s3:" ++ bucket, mount_path, "--vfs-cache-mode", "full",
           "--transfers", toString o.transfers, "--checkers", toString (o.transfers * 2),
           "--multi-thread-streams", toString o.multi_thread_streams,
           "--buffer-size", o.buffer_size, "--vfs-cache-max-size", o.vfs_cache_max_size,
           "--vfs-cache-max-age", o.vfs_cache_max_age, "--vfs-read-ahead", o.vfs_read_ahead,
           "--vfs-read-chunk-size", o.vfs_read_chunk_size,
           "--vfs-read-chunk-streams", toString o.vfs_read_chunk_streams,
           "--vfs-write-back", o.vfs_write_back, "--rc"] := by
      simp [get_mount_cmd, hfl]
    refine ⟨⟨["rclone", "mount", "s3:" ++ bucket, mount_path],
            ["--transfers", toString o.transfers, "--checkers", toString (o.transfers * 2),
             "--multi-thread-streams", toString o.multi_thread_streams,
             "--buffer-size", o.buffer_size, "--vfs-cache-max-size", o.vfs_cache_max_size,
             "--vfs-cache-max-age", o.vfs_cache_max_age, "--vfs-read-ahead", o.vfs_read_ahead,
             "--vfs-read-chunk-size", o.vfs_read_chunk_size,
             "--vfs-read-chunk-streams", toString o.vfs_read_chunk_streams,
             "--vfs-write-back", o.vfs_write_back, "--rc"],
            by rw [hcmd]; rfl⟩,
           by rw [hcmd]; simp,
           ⟨["rclone", "mount", "s3:" ++ bucket, mount_path, "--vfs-cache-mode", "full",
             "--transfers", toString o.transfers],
            ["--multi-thread-streams", toString o.multi_thread_streams,
             "--buffer-size", o.buffer_size, "--vfs-cache-max-size", o.vfs_cache_max_size,
             "--vfs-cache-max-age", o.vfs_cache_max_age, "--vfs-read-ahead", o.vfs_read_ahead,
             "--vfs-read-chunk-size", o.vfs_read_chunk_size,
             "--vfs-read-chunk-streams", toString o.vfs_read_chunk_streams,
             "--vfs-write-back", o.vfs_write_back, "--rc"],
            by rw [hcmd]; rfl⟩,
           fun hc => absurd hc (by simp [hfl]),
           fun hmp hbs hcs hca hra hrc hwb ht1 ht2 ht3 ht4 => by
             rw [hcmd]
             constructor
             · intro hmem
               exfalso
               simp only [List.mem_cons, List.not_mem_nil, or_false] at hmem
               rcases hmem with h | h | h | h | h | h | h | h | h | h | h | h | h | h | h |
                 h | h | h | h | h | h | h | h | h | h | h | h
               all_goals first
                 | exact absurd h (by decide)
                 | exact absurd h.symm (s3_bucket_ne_fast_list bucket)
                 | exact absurd h.symm hmp
                 | exact absurd h.symm ht1
                 | exact absurd h.symm ht2
                 | exact absurd h.symm ht3
                 | exact absurd h.symm ht4
                 | exact absurd h.symm hbs
                 | exact absurd h.symm hcs
                 | exact absurd h.symm hca
                 | exact absurd h.symm hra
                 | exact absurd h.symm hrc
                 | exact absurd h.symm hwb
             · intro hc
               exact absurd hc (by simp [hfl])⟩

/-- C10 (witness): at the default options and an innocuous mount path the
equivalence holds and reduces to the flag being false. -/
theorem C10_mount_cmd_flags_witness :
    ("--fast-list" ∈ get_mount_cmd "b" "/mnt" {} ↔ ({} : RCloneOptions).fast_list = true) :=
  (C10_mount_cmd_flags "b" "/mnt" {}).2.2.2.2 (by decide) (by decide) (by decide)
    (by decide) (by decide) (by decide) (by decide) (by decide) (by decide)
    (by decide) (by decide)

end RcloneBench
